import Mathlib

/-!
Shallow embedding of the `embedded-time` fixed-point duration engine
(`src/duration.rs`, `src/time_int.rs`) and, where the crate's modules
`fraction.rs` / `fixed_point.rs` / `rate.rs` are not among the sources,
definitions modelled from the specification (each such definition is
marked `Modelled from the spec:` in its doc comment).

Machine integers (`u32`, `u64`) are embedded as natural numbers together
with an explicit upper bound (`u32MAX`, `u64MAX`); a checked operation
fails exactly when its mathematical result exceeds the bound.  Panics
(`unwrap`, overflowing `+`/`-` operators) are embedded as `Option.none`.
-/

deriving instance DecidableEq for Except

/-- Largest value of the Rust `u32` type. -/
def u32MAX : Nat := 4294967295

/-- Largest value of the Rust `u64` type. -/
def u64MAX : Nat := 18446744073709551615

/-- The error enumeration `ConversionError` (crate root; variants used by
`src/duration.rs` and `src/time_int.rs`). -/
inductive ConversionError where
  | Overflow
  | ConversionFailure
  | DivByZero
deriving DecidableEq, Repr

/-- A rational scaling factor with `u32` numerator and denominator.
Modelled from the spec: `Fraction` (src/fraction.rs is not among the
sources): "an exact rational number (integer numerator, integer
denominator) used as a scaling factor". -/
structure Fraction where
  numer : Nat
  denom : Nat
deriving DecidableEq, Repr

/-- Modelled from the spec: `Fraction::reciprocal` (src/fraction.rs is not
among the sources): "swaps numerator and denominator".  (The spec's
`DivByZero` case for a zero numerator surfaces later, as a zero
denominator of the combined conversion fraction.) -/
def Fraction.recip (f : Fraction) : Fraction :=
  ⟨f.denom, f.numer⟩

/-- Modelled from the spec: reduction of a `Fraction` to lowest terms
(src/fraction.rs is not among the sources). -/
def Fraction.reduce (f : Fraction) : Fraction :=
  if Nat.gcd f.numer f.denom = 0 then f
  else ⟨f.numer / Nat.gcd f.numer f.denom, f.denom / Nat.gcd f.numer f.denom⟩

/-- Modelled from the spec: `Fraction::checked_mul` (src/fraction.rs is not
among the sources): "multiplies two fractions and reduces; fails with
`Overflow` if either the numerator or denominator product overflows the
representation" (the representation of a `Fraction` component is `u32`). -/
def Fraction.checked_mul (f g : Fraction) : Except ConversionError Fraction :=
  if f.numer * g.numer ≤ u32MAX ∧ f.denom * g.denom ≤ u32MAX then
    Except.ok (Fraction.reduce ⟨f.numer * g.numer, f.denom * g.denom⟩)
  else
    Except.error ConversionError.Overflow

/-- Modelled from the spec: fraction ordering "value-based after implicit
cross-multiplication" (src/fraction.rs is not among the sources). -/
def Fraction.lt (f g : Fraction) : Bool :=
  decide (f.numer * g.denom < g.numer * f.denom)

/-- Rust `checked_mul` on an unsigned integer type whose largest value is
`maxVal`: `some` of the product when it is representable, `none` on
overflow. -/
def checked_mul (maxVal a b : Nat) : Option Nat :=
  if a * b ≤ maxVal then some (a * b) else none

/-- Rust `checked_div` on an unsigned integer type: `none` exactly when the
divisor is zero, otherwise the quotient truncated toward zero. -/
def checked_div (a b : Nat) : Option Nat :=
  if b = 0 then none else some (a / b)

/-- `TimeInt::checked_mul_fraction` from `src/time_int.rs`: checked multiply
by the fraction's numerator (`Overflow` on failure), then checked divide by
its denominator (`DivByZero` on failure). -/
def checked_mul_fraction (maxVal v : Nat) (f : Fraction) :
    Except ConversionError Nat :=
  match checked_mul maxVal v f.numer with
  | none => Except.error ConversionError.Overflow
  | some p =>
    match checked_div p f.denom with
    | none => Except.error ConversionError.DivByZero
    | some q => Except.ok q

/-- `TimeInt::checked_div_fraction` from `src/time_int.rs`: checked multiply
by the fraction's denominator (`Overflow` on failure), then checked divide
by its numerator (`DivByZero` on failure). -/
def checked_div_fraction (maxVal v : Nat) (f : Fraction) :
    Except ConversionError Nat :=
  match checked_mul maxVal v f.denom with
  | none => Except.error ConversionError.Overflow
  | some p =>
    match checked_div p f.numer with
    | none => Except.error ConversionError.DivByZero
    | some q => Except.ok q

/-- Modelled from the spec: `fixed_point::from_ticks` (src/fixed_point.rs is
not among the sources), the tick-conversion algorithm of spec 4.4: compute
the combined conversion fraction `C = Fs x Fd.reciprocal()` once via the
fraction checked multiply, apply `checked_mul_fraction` in whichever of the
source or destination integer representation is wider, then narrow into the
destination representation, failing with `ConversionFailure` when the result
does not fit the destination's bit width. -/
def from_ticks (srcMax destMax v : Nat) (srcSF destSF : Fraction) :
    Except ConversionError Nat :=
  match Fraction.checked_mul srcSF destSF.recip with
  | Except.error e => Except.error e
  | Except.ok c =>
    match checked_mul_fraction (max srcMax destMax) v c with
    | Except.error e => Except.error e
    | Except.ok r =>
      if r ≤ destMax then Except.ok r
      else Except.error ConversionError.ConversionFailure

/-- The `Generic` duration container from `src/duration.rs`: an integer
magnitude paired with a runtime scaling factor. -/
structure Generic where
  integer : Nat
  scaling_factor : Fraction
deriving DecidableEq, Repr

/-- `impl From<$name<T>> for Generic<T>` from `src/duration.rs` (lines
519-524): `Generic::new(*duration.integer(), $name::<T>::SCALING_FACTOR)`,
with `sf` standing for the named unit type's `SCALING_FACTOR` constant. -/
def Generic.fromNamed (sf : Fraction) (m : Nat) : Generic :=
  ⟨m, sf⟩

/-- `Duration::to_generic` from `src/duration.rs` (lines 263-275): convert
the named value (integer `v`, scaling factor `selfSF`, representation bound
`srcMax`) into ticks under the requested `targetSF` (destination integer
bound `destMax`), and pair the ticks with `targetSF`.  The tick conversion
itself (`into_ticks`) lives in the absent src/fixed_point.rs and is the
spec-modelled `from_ticks` algorithm. -/
def to_generic (srcMax destMax v : Nat) (selfSF targetSF : Fraction) :
    Except ConversionError Generic :=
  match from_ticks srcMax destMax v selfSF targetSF with
  | Except.error e => Except.error e
  | Except.ok t => Except.ok ⟨t, targetSF⟩

/-- Scaling factor of `Hours` (`src/duration.rs` line 573). -/
def Hours.SCALING_FACTOR : Fraction := ⟨3600, 1⟩

/-- Scaling factor of `Minutes` (`src/duration.rs` line 574). -/
def Minutes.SCALING_FACTOR : Fraction := ⟨60, 1⟩

/-- Scaling factor of `Seconds` (`src/duration.rs` line 575). -/
def Seconds.SCALING_FACTOR : Fraction := ⟨1, 1⟩

/-- Scaling factor of `Milliseconds` (`src/duration.rs` line 576). -/
def Milliseconds.SCALING_FACTOR : Fraction := ⟨1, 1000⟩

/-- Scaling factor of `Microseconds` (`src/duration.rs` line 577). -/
def Microseconds.SCALING_FACTOR : Fraction := ⟨1, 1000000⟩

/-- Scaling factor of `Nanoseconds` (`src/duration.rs` line 578). -/
def Nanoseconds.SCALING_FACTOR : Fraction := ⟨1, 1000000000⟩

/-- Rust `TryFrom` between unsigned integer representations: succeeds
exactly when the value fits under the destination bound. -/
def tryFromInt (maxVal v : Nat) : Option Nat :=
  if v ≤ maxVal then some v else none

/-- Modelled from the spec: `FixedPoint::try_convert_from`
(src/fixed_point.rs is not among the sources) — convert the right-hand
value (integer `rv`, scaling factor `rhsSF`, bound `rhsMax`) into the
left-hand type's representation and scaling factor via the 4.4 algorithm. -/
def try_convert_from (rhsMax selfMax rv : Nat) (rhsSF selfSF : Fraction) :
    Except ConversionError Nat :=
  from_ticks rhsMax selfMax rv rhsSF selfSF

/-- Modelled from the spec: `FixedPoint::add` (src/fixed_point.rs is not
among the sources), backing `ops::Add` in `src/duration.rs` lines 444-454:
convert the right-hand operand into the left-hand type, then apply the
native integer addition, which panics (`none`) on overflow; a failed
conversion is unwrapped and also panics. -/
def FixedPoint.add (lMax lv : Nat) (lSF : Fraction) (rMax rv : Nat)
    (rSF : Fraction) : Option Nat :=
  match try_convert_from rMax lMax rv rSF lSF with
  | Except.error _ => none
  | Except.ok w => if lv + w ≤ lMax then some (lv + w) else none

/-- Modelled from the spec: `FixedPoint::sub` (src/fixed_point.rs is not
among the sources), backing `ops::Sub` in `src/duration.rs` lines 456-466:
convert the right-hand operand into the left-hand type, then apply the
native integer subtraction, which panics (`none`) on underflow. -/
def FixedPoint.sub (lMax lv : Nat) (lSF : Fraction) (rMax rv : Nat)
    (rSF : Fraction) : Option Nat :=
  match try_convert_from rMax lMax rv rSF lSF with
  | Except.error _ => none
  | Except.ok w => if w ≤ lv then some (lv - w) else none

/-- Modelled from the spec: `FixedPoint::rem` (src/fixed_point.rs is not
among the sources), backing `ops::Rem` in `src/duration.rs` lines 468-478:
convert the right-hand operand into the left-hand type, then take the
native remainder; per spec 8 ("returns the dividend unchanged modulo 1")
and the in-source test `tests::remainder` (`src/duration.rs` line 679,
`Minutes(62) % Milliseconds(1) == Minutes(0)`), a right-hand operand that
rescales to zero is replaced by 1; a failed conversion leaves the dividend
unchanged. -/
def FixedPoint.rem (lMax lv : Nat) (lSF : Fraction) (rMax rv : Nat)
    (rSF : Fraction) : Nat :=
  match try_convert_from rMax lMax rv rSF lSF with
  | Except.ok w => if w = 0 then lv % 1 else lv % w
  | Except.error _ => lv

/-- Modelled from the spec: `FixedPoint::eq` (src/fixed_point.rs is not
among the sources), backing `cmp::PartialEq` in `src/duration.rs` lines
480-489.  Per spec 4.1 ("value-based after implicit cross-multiplication"),
spec 8 ("cross-unit equality is consistent with scaling") and the in-source
doc examples (`src/duration.rs` lines 204-212: `Seconds(2) ==
Milliseconds(2000)`, `Seconds(2) != Milliseconds(2001)`), the comparison is
performed in the representation with the finer scaling factor, so that
sub-unit differences are never truncated away. -/
def FixedPoint.eq (lMax lv : Nat) (lSF : Fraction) (rMax rv : Nat)
    (rSF : Fraction) : Bool :=
  if Fraction.lt lSF rSF then
    decide (try_convert_from rMax lMax rv rSF lSF = Except.ok lv)
  else
    decide (try_convert_from lMax rMax lv lSF rSF = Except.ok rv)

/-- `Duration::to_rate` from `src/duration.rs` (lines 321-357): the
conversion factor is `(Self::SCALING_FACTOR * Rate::SCALING_FACTOR)
.recip()`; the branch is chosen by comparing the storage widths of the two
integer representations; in the narrower-duration branch the duration's
integer is converted with `Rate::T::try_from(..).ok().unwrap()` (a failure
of which is a panic, embedded as the outer `none`); the final
`fixed_point::from_ticks` call narrows into the rate type. -/
def to_rate (durMax rateMax v : Nat) (durSF rateSF : Fraction) :
    Option (Except ConversionError Nat) :=
  match Fraction.checked_mul durSF rateSF with
  | Except.error e => some (Except.error e)
  | Except.ok p =>
    let cf := p.recip
    if rateMax ≤ durMax then
      match checked_mul durMax v cf.denom with
      | none => some (Except.error ConversionError.Overflow)
      | some t =>
        match checked_div cf.numer t with
        | none => some (Except.error ConversionError.DivByZero)
        | some q => some (from_ticks durMax rateMax q rateSF rateSF)
    else
      match tryFromInt rateMax v with
      | none => none
      | some w =>
        match checked_mul rateMax w cf.denom with
        | none => some (Except.error ConversionError.Overflow)
        | some t =>
          match checked_div cf.numer t with
          | none => some (Except.error ConversionError.DivByZero)
          | some q => some (from_ticks rateMax rateMax q rateSF rateSF)

example :
    from_ticks u32MAX u64MAX 2000 ⟨1, 1000⟩ ⟨1, 1⟩ = Except.ok 2 := by decide

example :
    to_generic u64MAX u32MAX 2 ⟨1, 1⟩ ⟨1, 2000⟩ =
      Except.ok ⟨4000, ⟨1, 2000⟩⟩ := by decide

example :
    from_ticks u32MAX u32MAX u32MAX ⟨10, 1⟩ ⟨1, 1⟩ =
      Except.error ConversionError.Overflow := by decide

example :
    from_ticks u64MAX u32MAX (u32MAX + 1) ⟨1, 1⟩ ⟨1, 1⟩ =
      Except.error ConversionError.ConversionFailure := by decide

example : checked_mul_fraction u32MAX 8 ⟨1, 3⟩ = Except.ok 2 := by decide

example : checked_div_fraction u32MAX 8 ⟨3, 1⟩ = Except.ok 2 := by decide

example :
    to_rate u32MAX u32MAX 0 Seconds.SCALING_FACTOR ⟨1, 1⟩ =
      some (Except.error ConversionError.DivByZero) := by decide

example :
    FixedPoint.rem u32MAX 62 Minutes.SCALING_FACTOR u32MAX 1
      Milliseconds.SCALING_FACTOR = 0 := by decide

example :
    FixedPoint.rem u32MAX 62 Minutes.SCALING_FACTOR u32MAX 1
      Hours.SCALING_FACTOR = 2 := by decide

example :
    FixedPoint.eq u32MAX 2 Seconds.SCALING_FACTOR u32MAX 2000
      Milliseconds.SCALING_FACTOR = true := by decide

example :
    FixedPoint.eq u32MAX 2 Seconds.SCALING_FACTOR u32MAX 2001
      Milliseconds.SCALING_FACTOR = false := by decide

example :
    FixedPoint.add u32MAX u32MAX Seconds.SCALING_FACTOR u32MAX 1
      Seconds.SCALING_FACTOR = none := by decide

example :
    FixedPoint.sub u32MAX 2001 Milliseconds.SCALING_FACTOR u32MAX 1
      Seconds.SCALING_FACTOR = some 1001 := by decide

example :
    to_rate u32MAX u32MAX 500 Milliseconds.SCALING_FACTOR ⟨1, 1⟩ =
      some (Except.ok 2) := by decide

theorem checked_mul_fraction_ok_elim (maxVal v : Nat) (f : Fraction) (r : Nat)
    (h : checked_mul_fraction maxVal v f = Except.ok r) :
    r = v * f.numer / f.denom ∧ v * f.numer ≤ maxVal ∧ f.denom ≠ 0 := by
  unfold checked_mul_fraction checked_mul checked_div at h
  by_cases h1 : v * f.numer ≤ maxVal
  · by_cases h2 : f.denom = 0
    · simp [h1, h2] at h
    · simp [h1, h2] at h
      exact ⟨h.symm, h1, h2⟩
  · simp [h1] at h

theorem fraction_checked_mul_ok_elim (f g c : Fraction)
    (h : Fraction.checked_mul f g = Except.ok c) :
    c = Fraction.reduce ⟨f.numer * g.numer, f.denom * g.denom⟩ ∧
      f.numer * g.numer ≤ u32MAX ∧ f.denom * g.denom ≤ u32MAX := by
  unfold Fraction.checked_mul at h
  by_cases h1 : f.numer * g.numer ≤ u32MAX ∧ f.denom * g.denom ≤ u32MAX
  · simp only [if_pos h1, Except.ok.injEq] at h
    exact ⟨h.symm, h1⟩
  · simp [if_neg h1] at h

theorem reduce_mul_div (v : Nat) (f : Fraction) :
    v * (Fraction.reduce f).numer / (Fraction.reduce f).denom =
      v * f.numer / f.denom := by
  unfold Fraction.reduce
  by_cases hg : Nat.gcd f.numer f.denom = 0
  · rw [if_pos hg]
  · rw [if_neg hg]
    have hgpos : 0 < Nat.gcd f.numer f.denom := Nat.pos_of_ne_zero hg
    obtain ⟨p, hp⟩ := Nat.gcd_dvd_left f.numer f.denom
    obtain ⟨q, hq⟩ := Nat.gcd_dvd_right f.numer f.denom
    dsimp only
    generalize hG : Nat.gcd f.numer f.denom = G at hgpos hp hq ⊢
    rw [hp, hq, Nat.mul_div_cancel_left p hgpos, Nat.mul_div_cancel_left q hgpos,
      Nat.mul_left_comm v G p, Nat.mul_div_mul_left (v * p) q hgpos]

theorem from_ticks_ok_elim (srcMax destMax v : Nat) (srcSF destSF : Fraction)
    (r : Nat) (h : from_ticks srcMax destMax v srcSF destSF = Except.ok r) :
    r = v * (srcSF.numer * destSF.denom) / (srcSF.denom * destSF.numer) := by
  unfold from_ticks at h
  split at h
  · simp at h
  · rename_i c hc
    split at h
    · simp at h
    · rename_i r2 hm
      by_cases hle : r2 ≤ destMax
      · rw [if_pos hle] at h
        obtain ⟨hr2, -, -⟩ := checked_mul_fraction_ok_elim _ _ _ _ hm
        obtain ⟨hcval, -, -⟩ := fraction_checked_mul_ok_elim _ _ _ hc
        have hrr : r = r2 := by
          injection h with h2
          exact h2.symm
        rw [hrr, hr2, hcval]
        simpa [Fraction.recip] using
          reduce_mul_div v ⟨srcSF.numer * destSF.denom, srcSF.denom * destSF.numer⟩
      · rw [if_neg hle] at h
        simp at h

/-- C1: Tick conversion (used by `TryFrom<Generic>` for every named duration
unit and by `Duration::to_generic`): for every magnitude `v` under source
scaling factor `Ns/Ds` converted to destination scaling factor `Nd/Dd`,
whenever the conversion succeeds the resulting destination magnitude equals
`v * (Ns*Dd) / (Ds*Nd)` truncated toward zero. -/
theorem tick_conversion_truncated_value (srcMax destMax v : Nat)
    (srcSF destSF : Fraction) :
    (∀ r, from_ticks srcMax destMax v srcSF destSF = Except.ok r →
      r = v * (srcSF.numer * destSF.denom) / (srcSF.denom * destSF.numer)) ∧
    (∀ g, to_generic srcMax destMax v srcSF destSF = Except.ok g →
      g.integer = v * (srcSF.numer * destSF.denom) / (srcSF.denom * destSF.numer) ∧
        g.scaling_factor = destSF) := by
  refine ⟨fun r h => from_ticks_ok_elim _ _ _ _ _ _ h, fun g h => ?_⟩
  unfold to_generic at h
  split at h
  · simp at h
  · rename_i t ht
    have hg : g = ⟨t, destSF⟩ := by
      injection h with h2
      exact h2.symm
    subst hg
    exact ⟨from_ticks_ok_elim _ _ _ _ _ _ ht, rfl⟩

/-- Witness for C1, at the claim's own examples:
`Seconds::<u64>::try_from(Generic::new(2_000_u32, Fraction::new(1, 1_000)))
== Ok(Seconds(2_u64))` and `Seconds(2_u64).to_generic(Fraction::new(1,
2_000)) == Ok(Generic::new(4_000_u32, Fraction::new(1, 2_000)))`. -/
theorem tick_conversion_truncated_value_witness :
    (2 : Nat) = 2000 * (1 * 1) / (1000 * 1) ∧
    (⟨4000, ⟨1, 2000⟩⟩ : Generic).integer = 2 * (1 * 2000) / (1 * 1) ∧
    (⟨4000, ⟨1, 2000⟩⟩ : Generic).scaling_factor = ⟨1, 2000⟩ :=
  ⟨(tick_conversion_truncated_value u32MAX u64MAX 2000 ⟨1, 1000⟩ ⟨1, 1⟩).1 2
      (by decide),
   ((tick_conversion_truncated_value u64MAX u32MAX 2 ⟨1, 1⟩ ⟨1, 2000⟩).2
      ⟨4000, ⟨1, 2000⟩⟩ (by decide)).1,
   ((tick_conversion_truncated_value u64MAX u32MAX 2 ⟨1, 1⟩ ⟨1, 2000⟩).2
      ⟨4000, ⟨1, 2000⟩⟩ (by decide)).2⟩

/-- C2: for every integer value `v` and fraction `n/d`,
`checked_mul_fraction` computes `floor(v * n / d)` by a checked multiply
first and a checked divide second: `Err(Overflow)` when `v * n` overflows
the representation, `Err(DivByZero)` when (the multiply fits and) the
denominator is 0, and a successful result is `v * n / d` truncated toward
zero, never rounded (8 * (1/3) yields 2, not 3). -/
theorem checked_mul_fraction_spec (maxVal v : Nat) (f : Fraction) :
    (∀ r, checked_mul_fraction maxVal v f = Except.ok r →
      r = v * f.numer / f.denom) ∧
    (maxVal < v * f.numer →
      checked_mul_fraction maxVal v f = Except.error ConversionError.Overflow) ∧
    (v * f.numer ≤ maxVal → f.denom = 0 →
      checked_mul_fraction maxVal v f = Except.error ConversionError.DivByZero) ∧
    checked_mul_fraction u32MAX 8 ⟨1, 3⟩ = Except.ok 2 := by
  refine ⟨fun r h => (checked_mul_fraction_ok_elim _ _ _ _ h).1,
    fun hlt => ?_, fun hle h0 => ?_, by decide⟩
  · unfold checked_mul_fraction checked_mul
    rw [if_neg (by omega)]
  · unfold checked_mul_fraction checked_mul checked_div
    simp [hle, h0]

/-- Witness for C2: truncation at `8 * (1/3) = 2`, overflow of the multiply
step, and division by a zero denominator, each at concrete inputs. -/
theorem checked_mul_fraction_spec_witness :
    (2 : Nat) = 8 * (⟨1, 3⟩ : Fraction).numer / (⟨1, 3⟩ : Fraction).denom ∧
    checked_mul_fraction u32MAX u32MAX ⟨10, 1⟩ =
      Except.error ConversionError.Overflow ∧
    checked_mul_fraction u32MAX 8 ⟨1, 0⟩ =
      Except.error ConversionError.DivByZero :=
  ⟨(checked_mul_fraction_spec u32MAX 8 ⟨1, 3⟩).1 2 (by decide),
   (checked_mul_fraction_spec u32MAX u32MAX ⟨10, 1⟩).2.1 (by decide),
   (checked_mul_fraction_spec u32MAX 8 ⟨1, 0⟩).2.2.1 (by decide) (by decide)⟩

/-- C3: for every integer value `v` and fraction `n/d`,
`checked_div_fraction` computes `floor(v * d / n)` with the same error
semantics as `checked_mul_fraction`: `Err(Overflow)` when the multiply
`v * d` overflows, `Err(DivByZero)` when (the multiply fits and) the
fraction's numerator `n` is 0. -/
theorem checked_div_fraction_spec (maxVal v : Nat) (f : Fraction) :
    (∀ r, checked_div_fraction maxVal v f = Except.ok r →
      r = v * f.denom / f.numer) ∧
    (maxVal < v * f.denom →
      checked_div_fraction maxVal v f = Except.error ConversionError.Overflow) ∧
    (v * f.denom ≤ maxVal → f.numer = 0 →
      checked_div_fraction maxVal v f = Except.error ConversionError.DivByZero) := by
  refine ⟨fun r h => ?_, fun hlt => ?_, fun hle h0 => ?_⟩
  · unfold checked_div_fraction checked_mul checked_div at h
    by_cases h1 : v * f.denom ≤ maxVal
    · by_cases h2 : f.numer = 0
      · simp [h1, h2] at h
      · simp [h1, h2] at h
        exact h.symm
    · simp [h1] at h
  · unfold checked_div_fraction checked_mul
    rw [if_neg (by omega)]
  · unfold checked_div_fraction checked_mul checked_div
    simp [hle, h0]

/-- Witness for C3: truncation at `8 / (3/1) = 2`, overflow of the multiply
step, and division by a zero numerator, each at concrete inputs. -/
theorem checked_div_fraction_spec_witness :
    (2 : Nat) = 8 * (⟨3, 1⟩ : Fraction).denom / (⟨3, 1⟩ : Fraction).numer ∧
    checked_div_fraction u32MAX u32MAX ⟨1, 10⟩ =
      Except.error ConversionError.Overflow ∧
    checked_div_fraction u32MAX 8 ⟨0, 1⟩ =
      Except.error ConversionError.DivByZero :=
  ⟨(checked_div_fraction_spec u32MAX 8 ⟨3, 1⟩).1 2 (by decide),
   (checked_div_fraction_spec u32MAX u32MAX ⟨1, 10⟩).2.1 (by decide),
   (checked_div_fraction_spec u32MAX 8 ⟨0, 1⟩).2.2 (by decide) (by decide)⟩

/-- C4 counterexample: `Minutes(62_u32) % Milliseconds(1_u32)`.  The
right-hand operand rescales to zero minutes (first conjunct), yet the
remainder is `0`, not the left operand `62` unchanged — exactly the
in-source test `tests::remainder` (`src/duration.rs` line 679), which
expects `Minutes(0_u32)`. -/
theorem rem_after_zero_rescale_counterexample :
    try_convert_from u32MAX u32MAX 1 Milliseconds.SCALING_FACTOR
      Minutes.SCALING_FACTOR = Except.ok 0 ∧
    FixedPoint.rem u32MAX 62 Minutes.SCALING_FACTOR u32MAX 1
      Milliseconds.SCALING_FACTOR ≠ 62 := by
  constructor
  · decide
  · decide

/-- C4 (amended): for every pair of duration values `a` and `b` where
converting `b`'s magnitude into `a`'s integer type and scaling factor
truncates to zero, the remainder `a % b` equals the dividend taken modulo
1, i.e. the zero value — not `a` unchanged (e.g. `Minutes(62) %
Milliseconds(1) == Minutes(0)`, per `tests::remainder`). -/
theorem rem_after_zero_rescale (lMax lv : Nat) (lSF : Fraction)
    (rMax rv : Nat) (rSF : Fraction)
    (h : try_convert_from rMax lMax rv rSF lSF = Except.ok 0) :
    FixedPoint.rem lMax lv lSF rMax rv rSF = lv % 1 := by
  unfold FixedPoint.rem
  rw [h]
  simp

/-- Witness for C4's amended theorem at the test's own input:
`Minutes(62) % Milliseconds(1) == Minutes(62 % 1) == Minutes(0)`. -/
theorem rem_after_zero_rescale_witness :
    FixedPoint.rem u32MAX 62 Minutes.SCALING_FACTOR u32MAX 1
      Milliseconds.SCALING_FACTOR = 62 % 1 :=
  rem_after_zero_rescale u32MAX 62 Minutes.SCALING_FACTOR u32MAX 1
    Milliseconds.SCALING_FACTOR (by decide)

theorem seconds_to_milliseconds_ticks (n : Nat) (h : 1000 * n ≤ u32MAX) :
    from_ticks u32MAX u32MAX n Seconds.SCALING_FACTOR
      Milliseconds.SCALING_FACTOR = Except.ok (1000 * n) := by
  unfold from_ticks Seconds.SCALING_FACTOR Milliseconds.SCALING_FACTOR
  have hc : Fraction.checked_mul ⟨1, 1⟩ (Fraction.recip ⟨1, 1000⟩) =
      Except.ok ⟨1000, 1⟩ := by decide
  rw [hc]
  unfold checked_mul_fraction checked_mul checked_div
  have hmax : max u32MAX u32MAX = u32MAX := by decide
  rw [hmax]
  have hle : n * 1000 ≤ u32MAX := by omega
  simp [hle, Nat.mul_comm n 1000, h]

/-- C5: cross-unit equality between two named duration values of different
scaling factors is consistent with exact scaling: for every magnitude `N`
(such that `1000 * N + 1` still fits `u32`), `Seconds(N)` compares equal to
`Milliseconds(1000 * N)` and unequal for any off-by-one sub-unit difference
(`Milliseconds(1000 * N + 1)` and, for positive `N`,
`Milliseconds(1000 * N - 1)`). -/
theorem cross_unit_equality_scaling (n : Nat) (h : 1000 * n + 1 ≤ u32MAX) :
    FixedPoint.eq u32MAX n Seconds.SCALING_FACTOR u32MAX (1000 * n)
      Milliseconds.SCALING_FACTOR = true ∧
    FixedPoint.eq u32MAX n Seconds.SCALING_FACTOR u32MAX (1000 * n + 1)
      Milliseconds.SCALING_FACTOR = false ∧
    (0 < n →
      FixedPoint.eq u32MAX n Seconds.SCALING_FACTOR u32MAX (1000 * n - 1)
        Milliseconds.SCALING_FACTOR = false) := by
  have hft : from_ticks u32MAX u32MAX n Seconds.SCALING_FACTOR
      Milliseconds.SCALING_FACTOR = Except.ok (1000 * n) :=
    seconds_to_milliseconds_ticks n (by omega)
  have hlt : Fraction.lt Seconds.SCALING_FACTOR Milliseconds.SCALING_FACTOR
      = false := by decide
  refine ⟨?_, ?_, fun hn => ?_⟩ <;>
    unfold FixedPoint.eq try_convert_from <;>
    rw [hlt] <;>
    simp only [Bool.false_eq_true, if_false, hft] <;>
    simp <;>
    omega

/-- Witness for C5 at the doc examples of `src/duration.rs` lines 207-208:
`Seconds(2_u32) == Milliseconds(2_000_u32)` and `Seconds(2_u32) !=
Milliseconds(2_001_u32)` (and the other off-by-one side, 1999). -/
theorem cross_unit_equality_scaling_witness :
    FixedPoint.eq u32MAX 2 Seconds.SCALING_FACTOR u32MAX (1000 * 2)
      Milliseconds.SCALING_FACTOR = true ∧
    FixedPoint.eq u32MAX 2 Seconds.SCALING_FACTOR u32MAX (1000 * 2 + 1)
      Milliseconds.SCALING_FACTOR = false ∧
    FixedPoint.eq u32MAX 2 Seconds.SCALING_FACTOR u32MAX (1000 * 2 - 1)
      Milliseconds.SCALING_FACTOR = false :=
  ⟨(cross_unit_equality_scaling 2 (by decide)).1,
   (cross_unit_equality_scaling 2 (by decide)).2.1,
   (cross_unit_equality_scaling 2 (by decide)).2.2 (by decide)⟩

/-- C6: converting a `Generic` container into a named duration type
distinguishes its two failure modes and never conflates them: given that the
scaling-factor multiply produced the combined conversion fraction `c`, the
result is `Err(Overflow)` exactly when the arithmetic multiply step exceeds
the wider representation's range, and `Err(ConversionFailure)` exactly when
the scaling arithmetic succeeds but the correctly scaled result does not
fit the destination's bit width. -/
theorem generic_conversion_error_taxonomy (srcMax destMax v : Nat)
    (srcSF destSF c : Fraction)
    (hc : Fraction.checked_mul srcSF destSF.recip = Except.ok c) :
    (from_ticks srcMax destMax v srcSF destSF =
        Except.error ConversionError.Overflow ↔
      max srcMax destMax < v * c.numer) ∧
    (from_ticks srcMax destMax v srcSF destSF =
        Except.error ConversionError.ConversionFailure ↔
      v * c.numer ≤ max srcMax destMax ∧ c.denom ≠ 0 ∧
        destMax < v * c.numer / c.denom) := by
  unfold from_ticks
  rw [hc]
  unfold checked_mul_fraction checked_mul checked_div
  by_cases h1 : v * c.numer ≤ max srcMax destMax
  · by_cases h2 : c.denom = 0
    · simp [h1, h2]
      omega
    · by_cases h3 : v * c.numer / c.denom ≤ destMax
      · simp [h1, h2, h3]
        omega
      · simp [h1, h2, h3]
        omega
  · simp [h1]
    omega

/-- Witness for C6 at the two doc examples of `src/duration.rs` lines 54-77:
`Seconds::<u32>::try_from(Generic::new(u32::MAX, Fraction::new(10, 1))) ==
Err(Overflow)` and `Seconds::<u32>::try_from(Generic::new(u32::MAX as u64 +
1, Fraction::new(1, 1))) == Err(ConversionFailure)`. -/
theorem generic_conversion_error_taxonomy_witness :
    from_ticks u32MAX u32MAX u32MAX ⟨10, 1⟩ ⟨1, 1⟩ =
      Except.error ConversionError.Overflow ∧
    from_ticks u64MAX u32MAX 4294967296 ⟨1, 1⟩ ⟨1, 1⟩ =
      Except.error ConversionError.ConversionFailure :=
  ⟨((generic_conversion_error_taxonomy u32MAX u32MAX u32MAX ⟨10, 1⟩ ⟨1, 1⟩
      ⟨10, 1⟩ (by decide)).1).mpr (by decide),
   ((generic_conversion_error_taxonomy u64MAX u32MAX 4294967296 ⟨1, 1⟩ ⟨1, 1⟩
      ⟨1, 1⟩ (by decide)).2).mpr (by decide)⟩

/-- C7: for every duration value whose integer magnitude is 0 and every
target rate type whose scaling-factor product with the duration's scaling
factor is representable, `to_rate` returns `Err(ConversionError::DivByZero)`
(e.g. `Seconds(0_u32).to_rate::<Hertz<u32>>() == Err(DivByZero)`). -/
theorem to_rate_zero_div_by_zero (durMax rateMax : Nat)
    (durSF rateSF p : Fraction)
    (hp : Fraction.checked_mul durSF rateSF = Except.ok p) :
    to_rate durMax rateMax 0 durSF rateSF =
      some (Except.error ConversionError.DivByZero) := by
  unfold to_rate
  rw [hp]
  have hmul : ∀ m d : Nat, checked_mul m 0 d = some 0 := by
    intro m d
    unfold checked_mul
    simp
  have hdiv : ∀ a : Nat, checked_div a 0 = none := by
    intro a
    unfold checked_div
    simp
  by_cases hw : rateMax ≤ durMax
  · simp [hw, hmul, hdiv]
  · have h0 : tryFromInt rateMax 0 = some 0 := by
      unfold tryFromInt
      simp
    simp [hw, h0, hmul, hdiv]

/-- Witness for C7 at the doc example of `src/duration.rs` lines 313-320:
`Seconds(0_u32).to_rate::<Hertz<u32>>() == Err(ConversionError::DivByZero)`
(the `Hertz` scaling factor is 1/1). -/
theorem to_rate_zero_div_by_zero_witness :
    to_rate u32MAX u32MAX 0 Seconds.SCALING_FACTOR ⟨1, 1⟩ =
      some (Except.error ConversionError.DivByZero) :=
  to_rate_zero_div_by_zero u32MAX u32MAX Seconds.SCALING_FACTOR ⟨1, 1⟩
    ⟨1, 1⟩ (by decide)

/-- C8: embedding a named duration unit value into the `Generic` container
(`From<$name<T>> for Generic<T>`) is total and lossless: for every magnitude
`m` it always succeeds (the embedding is a total function), the resulting
`Generic`'s integer field equals `m`, its scaling_factor field equals the
source type's fixed `SCALING_FACTOR` constant `sf`, and the embedding is
injective. -/
theorem generic_from_named_lossless (sf : Fraction) (m m2 : Nat)
    (h : Generic.fromNamed sf m = Generic.fromNamed sf m2) :
    (Generic.fromNamed sf m).integer = m ∧
    (Generic.fromNamed sf m).scaling_factor = sf ∧
    m = m2 := by
  refine ⟨rfl, rfl, ?_⟩
  injection h

/-- Witness for C8 at `Milliseconds(23_u32)` (the doc example of
`src/duration.rs` line 84). -/
theorem generic_from_named_lossless_witness :
    (Generic.fromNamed Milliseconds.SCALING_FACTOR 23).integer = 23 ∧
    (Generic.fromNamed Milliseconds.SCALING_FACTOR 23).scaling_factor =
      Milliseconds.SCALING_FACTOR ∧
    (23 : Nat) = 23 :=
  generic_from_named_lossless Milliseconds.SCALING_FACTOR 23 23 rfl

/-- C9: the `+` and `-` operators on named duration types first convert the
right-hand operand into the left-hand type (here: the conversion produced
`w`), produce a result of the left-hand type, and use the native overflow
behavior of the underlying integer: whenever the converted sum exceeds the
left-hand integer type's range the operation panics (`none`) rather than
returning an error value, and likewise for a subtraction that underflows;
within range they return the native sum/difference. -/
theorem add_sub_native_overflow (lMax lv : Nat) (lSF : Fraction)
    (rMax rv : Nat) (rSF : Fraction) (w : Nat)
    (hconv : try_convert_from rMax lMax rv rSF lSF = Except.ok w) :
    (lMax < lv + w →
      FixedPoint.add lMax lv lSF rMax rv rSF = none) ∧
    (lv + w ≤ lMax →
      FixedPoint.add lMax lv lSF rMax rv rSF = some (lv + w)) ∧
    (lv < w →
      FixedPoint.sub lMax lv lSF rMax rv rSF = none) ∧
    (w ≤ lv →
      FixedPoint.sub lMax lv lSF rMax rv rSF = some (lv - w)) := by
  unfold FixedPoint.add FixedPoint.sub
  rw [hconv]
  refine ⟨fun h1 => ?_, fun h2 => ?_, fun h3 => ?_, fun h4 => ?_⟩
  · simp only []
    rw [if_neg (by omega)]
  · simp only []
    rw [if_pos h2]
  · simp only []
    rw [if_neg (by omega)]
  · simp only []
    rw [if_pos h4]

/-- Witness for C9 at the doc examples of `src/duration.rs` lines 182-200:
`Seconds(u32::MAX) + Seconds(1_u32)` panics, and `Milliseconds(2_001_u32) -
Seconds(1_u32) == Milliseconds(1_001_u32)`. -/
theorem add_sub_native_overflow_witness :
    FixedPoint.add u32MAX u32MAX Seconds.SCALING_FACTOR u32MAX 1
      Seconds.SCALING_FACTOR = none ∧
    FixedPoint.sub u32MAX 2001 Milliseconds.SCALING_FACTOR u32MAX 1
      Seconds.SCALING_FACTOR = some (2001 - 1000) :=
  ⟨(add_sub_native_overflow u32MAX u32MAX Seconds.SCALING_FACTOR u32MAX 1
      Seconds.SCALING_FACTOR 1 (by decide)).1 (by decide),
   (add_sub_native_overflow u32MAX 2001 Milliseconds.SCALING_FACTOR u32MAX 1
      Seconds.SCALING_FACTOR 1000 (by decide)).2.2.2 (by decide)⟩

/-- C10: inside `Duration::to_rate`, the branch taken when `size_of::<Self::
T>() < size_of::<Rate::T>()` converts the duration's magnitude with
`Rate::T::try_from(*self.integer()).ok().unwrap()`; because that branch only
runs when the rate's integer type is strictly wider than the duration's,
the widening conversion always succeeds on any representable duration
magnitude (`v ≤ durMax`), and so the unwrap can never panic: `to_rate`
never evaluates to the panic marker `none`. -/
theorem to_rate_unwrap_never_panics (durMax rateMax v : Nat)
    (durSF rateSF : Fraction) (hv : v ≤ durMax) :
    (durMax < rateMax → tryFromInt rateMax v = some v) ∧
    to_rate durMax rateMax v durSF rateSF ≠ none := by
  have htf : durMax < rateMax → tryFromInt rateMax v = some v := by
    intro hw
    unfold tryFromInt
    rw [if_pos (by omega)]
  refine ⟨htf, ?_⟩
  unfold to_rate
  split
  · simp
  · by_cases hw : rateMax ≤ durMax
    · rw [if_pos hw]
      split
      · simp
      · split
        · simp
        · simp
    · rw [if_neg hw]
      rw [htf (by omega)]
      split
      · rename_i heq
        simp at heq
      · split
        · simp
        · split
          · simp
          · simp

/-- Witness for C10 at `Microseconds(500_u32).to_rate::<Kilohertz<u64>>()`:
the duration's `u32` magnitude 500 widens into the strictly wider `u64`
rate representation, and `to_rate` does not panic. -/
theorem to_rate_unwrap_never_panics_witness :
    tryFromInt u64MAX 500 = some 500 ∧
    to_rate u32MAX u64MAX 500 Microseconds.SCALING_FACTOR ⟨1000, 1⟩ ≠ none :=
  ⟨(to_rate_unwrap_never_panics u32MAX u64MAX 500 Microseconds.SCALING_FACTOR
      ⟨1000, 1⟩ (by decide)).1 (by decide),
   (to_rate_unwrap_never_panics u32MAX u64MAX 500 Microseconds.SCALING_FACTOR
      ⟨1000, 1⟩ (by decide)).2⟩
